import Mathlib

/-!
Shallow embedding of `src/services/google/google-polyline.service.ts`,
the class `GooglePolylineService` of the `angular-maps` repository.

Modelling conventions:

* JavaScript object identity of a `MapPolylineComponent` is modelled by a
  `ref : Nat` field; the service's `Map<MapPolylineComponent, Promise<Polyline>>`
  is an association list from component refs to promise identifiers, with
  `Map.set` / `Map.get` / `Map.delete` modelled by `mapSet` / `mapGet` /
  `mapDelete` (insertion order preserving, replacing on `set`, like a JS `Map`).
* A `Promise<Polyline>` is modelled by its identifier (a `Nat`); the native
  `Polyline` a promise resolves to is likewise a `Nat` handle supplied at
  resolution time.
* Calls into the collaborators (`MapService.CreatePolyline`, the native
  polyline's `Delete` / `SetOptions` / `SetPath` / `AddListener`, and
  `observer.next`) are recorded in an effect trace.  `NgZone.run(fn)` is
  modelled structurally: the actions performed inside the callback are grouped
  under an `Effect.zoneRun` node, while actions performed outside any
  `zone.run` appear as `Effect.plain` nodes.
* Each asynchronous method is split into its synchronous part (what runs when
  the method is called: null checks, `Map` lookups, registering a `.then`
  continuation) and an `onResolve` part (the body of the `.then` continuation,
  run when the stored promise fulfills with native handle `l`).
* `undefined`/`null` results are `Option.none`; a thrown `TypeError`
  (calling `.then` of `undefined`) is `Except.error`.
* Numbers are carried by `Int` (the service never computes with them, it only
  forwards them).
-/

namespace AngularMaps

/-- Geographic coordinates (`ILatLong` interface): `latitude`/`longitude`. -/
structure ILatLong where
  latitude : Int
  longitude : Int
  deriving DecidableEq, Repr

/-- Polyline options object (`IPolylineOptions` interface), exactly the fields
`AddPolyline` populates. -/
structure IPolylineOptions where
  id : Nat
  clickable : Bool
  draggable : Bool
  editable : Bool
  geodesic : Bool
  path : List ILatLong
  strokeColor : String
  strokeOpacity : Int
  strokeWeight : Int
  visible : Bool
  zIndex : Int
  deriving DecidableEq, Repr

/-- The declarative component (`MapPolylineComponent`).  `ref` models the
JavaScript object identity used as the `Map` key; the remaining fields are the
component's declarative properties read by the service. -/
structure MapPolylineComponent where
  ref : Nat
  Id : Nat
  Clickable : Bool
  Draggable : Bool
  Editable : Bool
  Geodesic : Bool
  Path : List ILatLong
  StrokeColor : String
  StrokeOpacity : Int
  StrokeWeight : Int
  Visible : Bool
  zIndex : Int
  deriving DecidableEq, Repr

/-- The `latLng` member of a Google Maps mouse event: `lat` and `lng` are
methods when present (`none` models an absent/falsy member). -/
structure GoogleLatLng where
  lat : Option (Unit → Int)
  lng : Option (Unit → Int)

/-- A Google Maps mouse event as consumed by `GetCoordinatesFromClick`:
only the `latLng` member is inspected (`none` models an absent member). -/
structure GoogleMouseEvent where
  latLng : Option GoogleLatLng

/-- A thrown JavaScript error; the only one this service can raise is the
`TypeError` from calling `.then` of `undefined`. -/
inductive JsError where
  | typeError
  deriving DecidableEq, Repr

/-- An action performed against a collaborator: the map SDK, a native polyline
handle, or the observer of an event observable. -/
inductive Act (E : Type) where
  | createPolyline (pid : Nat) (o : IPolylineOptions)
  | nativeDelete (l : Nat)
  | nativeSetOptions (l : Nat) (o : IPolylineOptions)
  | nativeSetPath (l : Nat) (path : List ILatLong)
  | addListener (l : Nat) (eventName : String)
  | observerNext (e : E)
  deriving DecidableEq, Repr

/-- A trace element: an action performed outside any `NgZone.run` (`plain`),
or the list of actions performed inside one `NgZone.run` callback (`zoneRun`). -/
inductive Effect (E : Type) where
  | plain (a : Act E)
  | zoneRun (body : List (Act E))
  deriving DecidableEq, Repr

/-- JS `Map.get`: the value stored at key `k`, `none` for `undefined`. -/
def mapGet (m : List (Nat × Nat)) (k : Nat) : Option Nat :=
  match m with
  | [] => none
  | (k', v) :: rest => if k' = k then some v else mapGet rest k

/-- JS `Map.set`: replace the value at key `k` in place, or append a new entry. -/
def mapSet (m : List (Nat × Nat)) (k v : Nat) : List (Nat × Nat) :=
  match m with
  | [] => [(k, v)]
  | (k', v') :: rest => if k' = k then (k, v) :: rest else (k', v') :: mapSet rest k v

/-- JS `Map.delete`: remove the entry at key `k` (the first one; a JS `Map`
holds at most one entry per key). -/
def mapDelete (m : List (Nat × Nat)) (k : Nat) : List (Nat × Nat) :=
  match m with
  | [] => []
  | (k', v') :: rest => if k' = k then rest else (k', v') :: mapDelete rest k

/-- The keys of the map, in order. -/
def keys (m : List (Nat × Nat)) : List Nat :=
  m.map Prod.fst

/-- Well-formedness of the model of a JS `Map`: no key occurs twice. -/
def NodupKeys (m : List (Nat × Nat)) : Prop :=
  (keys m).Nodup

instance (m : List (Nat × Nat)) : Decidable (NodupKeys m) :=
  inferInstanceAs (Decidable (keys m).Nodup)

/-- How many entries the map holds for key `k`. -/
def countKey (m : List (Nat × Nat)) (k : Nat) : Nat :=
  (keys m).count k

/-- The service's fields: its only mutable state is the single map
`_polylines : Map<MapPolylineComponent, Promise<Polyline>>` (the injected
`_mapService`, `_layerService` and `_zone` are collaborators, modelled by the
effect trace of the world). -/
structure ServiceState where
  _polylines : List (Nat × Nat)
  deriving DecidableEq, Repr

/-- The world a method call runs in: the service state, a fresh-promise
counter for `MapService.CreatePolyline`, and the trace of collaborator calls. -/
structure World (E : Type) where
  svc : ServiceState
  nextPid : Nat
  trace : List (Effect E)
  deriving DecidableEq, Repr

/-- What the synchronous part of a `Promise`-returning method returned:
`Promise.resolve()` (already resolved), or `m.then(...)` chained on the stored
promise `pid`. -/
inductive SyncResult where
  | resolvedNow
  | chained (pid : Nat)
  deriving DecidableEq, Repr

namespace GooglePolylineService

variable {E : Type}

/-- The options object literal `o` built by `AddPolyline` from the component's
properties (lines 57-69 of the source). -/
def makeOptions (c : MapPolylineComponent) : IPolylineOptions :=
  { id := c.Id
    clickable := c.Clickable
    draggable := c.Draggable
    editable := c.Editable
    geodesic := c.Geodesic
    path := c.Path
    strokeColor := c.StrokeColor
    strokeOpacity := c.StrokeOpacity
    strokeWeight := c.StrokeWeight
    visible := c.Visible
    zIndex := c.zIndex }

/-- `AddPolyline(polyline)`: build the options object, call
`MapService.CreatePolyline(o)` (returning a fresh promise), and store the
promise in `_polylines` under the component. -/
def AddPolyline (w : World E) (c : MapPolylineComponent) : World E :=
  let o := makeOptions c
  let pid := w.nextPid
  { svc := ⟨mapSet w.svc._polylines c.ref pid⟩
    nextPid := pid + 1
    trace := w.trace ++ [Effect.plain (Act.createPolyline pid o)] }

/-- Synchronous part of `DeletePolyline(polyline)`: look up the stored promise
`m`; if `m == null` return `Promise.resolve()`, else return `m.then(...)`.
No state changes and no collaborator calls happen synchronously. -/
def DeletePolyline (w : World E) (c : MapPolylineComponent) : World E × SyncResult :=
  match mapGet w.svc._polylines c.ref with
  | none => (w, SyncResult.resolvedNow)
  | some pid => (w, SyncResult.chained pid)

/-- Continuation of `DeletePolyline` when the stored promise fulfills with the
native handle `l`: inside `_zone.run`, call `l.Delete()` and remove the
component's entry from `_polylines`. -/
def DeletePolyline.onResolve (w : World E) (c : MapPolylineComponent) (l : Nat) : World E :=
  { w with
    svc := ⟨mapDelete w.svc._polylines c.ref⟩
    trace := w.trace ++ [Effect.zoneRun [Act.nativeDelete l]] }

/-- `GetCoordinatesFromClick(e)`: null checks on `e`, `e.latLng`,
`e.latLng.lat`, `e.latLng.lng`; otherwise build the `ILatLong` literal from
`e.latLng.lat()` and `e.latLng.lng()`. -/
def GetCoordinatesFromClick (e : Option GoogleMouseEvent) : Option ILatLong :=
  match e with
  | none => none
  | some ev =>
    match ev.latLng with
    | none => none
    | some ll =>
      match ll.lat, ll.lng with
      | some la, some ln => some { latitude := la (), longitude := ln () }
      | _, _ => none

/-- `GetNativeMarker(polyline)`: return `this._polylines.get(polyline)`
(possibly `undefined`), with no guard and no state change. -/
def GetNativeMarker (w : World E) (c : MapPolylineComponent) : Option Nat :=
  mapGet w.svc._polylines c.ref

/-- Synchronous part of `SetOptions(polyline, options)`: call `.then` on
`this._polylines.get(polyline)` with no guard — a `TypeError` if the component
is not in the map. -/
def SetOptions (w : World E) (c : MapPolylineComponent) (options : IPolylineOptions) :
    Except JsError (World E × SyncResult) :=
  match mapGet w.svc._polylines c.ref with
  | none => Except.error JsError.typeError
  | some pid => Except.ok (w, SyncResult.chained pid)

/-- Continuation of `SetOptions` when the stored promise fulfills with handle
`l`: call `l.SetOptions(options)` (outside any `zone.run`). -/
def SetOptions.onResolve (w : World E) (options : IPolylineOptions) (l : Nat) : World E :=
  { w with trace := w.trace ++ [Effect.plain (Act.nativeSetOptions l options)] }

/-- Synchronous part of `UpdatePolyline(polyline)`: look up the stored promise
`m`; if `m == null` return `Promise.resolve()`, else return `m.then(...)`. -/
def UpdatePolyline (w : World E) (c : MapPolylineComponent) : World E × SyncResult :=
  match mapGet w.svc._polylines c.ref with
  | none => (w, SyncResult.resolvedNow)
  | some pid => (w, SyncResult.chained pid)

/-- Continuation of `UpdatePolyline` when the stored promise fulfills with
handle `l`: inside `_zone.run`, call `l.SetPath(polyline.Path)`. -/
def UpdatePolyline.onResolve (w : World E) (c : MapPolylineComponent) (l : Nat) : World E :=
  { w with trace := w.trace ++ [Effect.zoneRun [Act.nativeSetPath l c.Path]] }

/-- Subscription to the observable returned by
`CreateEventObservable(eventName, polyline)`: the subscriber function calls
`.then` on `this._polylines.get(polyline)` with no guard — a `TypeError` if
the component is not in the map.  Nothing else happens synchronously. -/
def CreateEventObservable.subscribe (w : World E) (eventName : String)
    (c : MapPolylineComponent) : Except JsError (World E × SyncResult) :=
  match mapGet w.svc._polylines c.ref with
  | none => Except.error JsError.typeError
  | some pid => Except.ok (w, SyncResult.chained pid)

/-- Continuation of the subscription when the stored promise fulfills with
handle `p`: call `p.AddListener(eventName, handler)`. -/
def CreateEventObservable.onResolve (w : World E) (eventName : String) (p : Nat) : World E :=
  { w with trace := w.trace ++ [Effect.plain (Act.addListener p eventName)] }

/-- The listener handler registered by `CreateEventObservable` firing with
event `e`: `(e) => this._zone.run(() => observer.next(e))`. -/
def listenerFire (w : World E) (e : E) : World E :=
  { w with trace := w.trace ++ [Effect.zoneRun [Act.observerNext e]] }

/-- One call into the service (or one of its registered continuations firing),
used to quantify over every execution of the service. -/
inductive Op (E : Type) where
  | add (c : MapPolylineComponent)
  | del (c : MapPolylineComponent)
  | delResolve (c : MapPolylineComponent) (l : Nat)
  | getNative (c : MapPolylineComponent)
  | setOpts (c : MapPolylineComponent) (o : IPolylineOptions)
  | setOptsResolve (o : IPolylineOptions) (l : Nat)
  | update (c : MapPolylineComponent)
  | updateResolve (c : MapPolylineComponent) (l : Nat)
  | subscribe (eventName : String) (c : MapPolylineComponent)
  | subscribeResolve (eventName : String) (l : Nat)
  | fire (e : E)

/-- Does this operation write to the `_polylines` map?  Only `AddPolyline`
(`Map.set`) and the `DeletePolyline` continuation (`Map.delete`) do. -/
def Op.writesMap : Op E → Bool
  | Op.add _ => true
  | Op.delResolve _ _ => true
  | _ => false

/-- Apply one operation to the world.  A thrown `TypeError` propagates to the
caller before any state change or collaborator call, so the world is unchanged
in the error case. -/
def applyOp (w : World E) : Op E → World E
  | Op.add c => AddPolyline w c
  | Op.del c => (DeletePolyline w c).1
  | Op.delResolve c l => DeletePolyline.onResolve w c l
  | Op.getNative _ => w
  | Op.setOpts c o =>
    match SetOptions w c o with
    | Except.ok p => p.1
    | Except.error _ => w
  | Op.setOptsResolve o l => SetOptions.onResolve w o l
  | Op.update c => (UpdatePolyline w c).1
  | Op.updateResolve c l => UpdatePolyline.onResolve w c l
  | Op.subscribe n c =>
    match CreateEventObservable.subscribe w n c with
    | Except.ok p => p.1
    | Except.error _ => w
  | Op.subscribeResolve n l => CreateEventObservable.onResolve w n l
  | Op.fire e => listenerFire w e

/-- Run a sequence of operations. -/
def run (w : World E) (ops : List (Op E)) : World E :=
  ops.foldl applyOp w

end GooglePolylineService

/-- The event payload an action delivers to the observer, if any. -/
def actEmission {E : Type} : Act E → Option E
  | Act.observerNext e => some e
  | _ => none

/-- The observer emissions an effect performs outside any `zone.run`. -/
def effectOutside {E : Type} : Effect E → List E
  | Effect.plain a => (actEmission a).toList
  | Effect.zoneRun _ => []

/-- The observer emissions an effect performs inside a `zone.run`. -/
def effectInside {E : Type} : Effect E → List E
  | Effect.plain _ => []
  | Effect.zoneRun body => body.filterMap actEmission

/-- All observer emissions of a trace performed outside any `zone.run`. -/
def emittedOutsideZone {E : Type} (t : List (Effect E)) : List E :=
  t.flatMap effectOutside

/-- All observer emissions of a trace performed inside a `zone.run`. -/
def emittedInZone {E : Type} (t : List (Effect E)) : List E :=
  t.flatMap effectInside

/-- The native handles an action deletes. -/
def actDeletes {E : Type} : Act E → List Nat
  | Act.nativeDelete l => [l]
  | _ => []

/-- All native handles a trace deletes (inside or outside `zone.run`). -/
def deletedIn {E : Type} (t : List (Effect E)) : List Nat :=
  t.flatMap fun eff =>
    match eff with
    | Effect.plain a => actDeletes a
    | Effect.zoneRun body => body.flatMap actDeletes

/-! ### Laws of the JS `Map` model -/

theorem mapGet_mapSet_self (m : List (Nat × Nat)) (k v : Nat) :
    mapGet (mapSet m k v) k = some v := by
  induction m with
  | nil => simp [mapSet, mapGet]
  | cons hd tl ih =>
    obtain ⟨k', v'⟩ := hd
    by_cases h : k' = k
    · simp [mapSet, mapGet, h]
    · simp [mapSet, mapGet, h, ih]

theorem mapGet_eq_none_of_not_mem_keys (m : List (Nat × Nat)) (k : Nat)
    (h : k ∉ keys m) : mapGet m k = none := by
  induction m with
  | nil => rfl
  | cons hd tl ih =>
    obtain ⟨k', v'⟩ := hd
    simp only [keys, List.map_cons, List.mem_cons] at h
    push_neg at h
    have hne : ¬k' = k := fun hh => h.1 hh.symm
    simpa [mapGet, hne] using ih h.2

theorem mem_keys_mapSet (m : List (Nat × Nat)) (k v a : Nat) :
    a ∈ keys (mapSet m k v) ↔ a ∈ keys m ∨ a = k := by
  induction m with
  | nil => simp [mapSet, keys]
  | cons hd tl ih =>
    obtain ⟨k', v'⟩ := hd
    by_cases h : k' = k
    · subst h
      simp [mapSet, keys]
      tauto
    · simp [mapSet, keys, h] at ih ⊢
      rw [ih]
      tauto

theorem nodupKeys_mapSet (m : List (Nat × Nat)) (k v : Nat) (h : NodupKeys m) :
    NodupKeys (mapSet m k v) := by
  induction m with
  | nil => simp [NodupKeys, mapSet, keys]
  | cons hd tl ih =>
    obtain ⟨k', v'⟩ := hd
    unfold NodupKeys keys at h ⊢
    simp only [List.map_cons, List.nodup_cons] at h
    by_cases hk : k' = k
    · subst hk
      simpa [mapSet, keys] using h
    · have htl := ih h.2
      simp only [mapSet, hk, if_false, List.map_cons, List.nodup_cons]
      refine ⟨fun hmem => ?_, htl⟩
      rcases (mem_keys_mapSet tl k v k').1 hmem with hin | heq
      · exact h.1 hin
      · exact hk heq

theorem keys_mapDelete_sublist (m : List (Nat × Nat)) (k : Nat) :
    List.Sublist (keys (mapDelete m k)) (keys m) := by
  induction m with
  | nil => simp [mapDelete, keys]
  | cons hd tl ih =>
    obtain ⟨k', v'⟩ := hd
    by_cases h : k' = k
    · simp only [mapDelete, keys, h, if_true, List.map_cons]
      exact List.sublist_cons_self _ _
    · simpa [mapDelete, keys, h] using ih.cons₂ k'

theorem nodupKeys_mapDelete (m : List (Nat × Nat)) (k : Nat) (h : NodupKeys m) :
    NodupKeys (mapDelete m k) :=
  (keys_mapDelete_sublist m k).nodup h

theorem mapGet_mapDelete_self (m : List (Nat × Nat)) (k : Nat) (h : NodupKeys m) :
    mapGet (mapDelete m k) k = none := by
  induction m with
  | nil => rfl
  | cons hd tl ih =>
    obtain ⟨k', v'⟩ := hd
    unfold NodupKeys keys at h
    simp only [List.map_cons, List.nodup_cons] at h
    by_cases hk : k' = k
    · subst hk
      simpa [mapDelete] using mapGet_eq_none_of_not_mem_keys tl k' h.1
    · simpa [mapDelete, mapGet, hk] using ih h.2

theorem countKey_le_one_of_nodupKeys (m : List (Nat × Nat)) (k : Nat)
    (h : NodupKeys m) : countKey m k ≤ 1 :=
  List.nodup_iff_count_le_one.1 h k

/-! ### Laws of the trace observers -/

theorem emittedOutsideZone_append {E : Type} (t₁ t₂ : List (Effect E)) :
    emittedOutsideZone (t₁ ++ t₂) = emittedOutsideZone t₁ ++ emittedOutsideZone t₂ := by
  simp [emittedOutsideZone]

theorem emittedInZone_append {E : Type} (t₁ t₂ : List (Effect E)) :
    emittedInZone (t₁ ++ t₂) = emittedInZone t₁ ++ emittedInZone t₂ := by
  simp [emittedInZone]

theorem deletedIn_append {E : Type} (t₁ t₂ : List (Effect E)) :
    deletedIn (t₁ ++ t₂) = deletedIn t₁ ++ deletedIn t₂ := by
  simp [deletedIn]

/-! ### Operation-level frame and preservation lemmas -/

namespace GooglePolylineService

theorem DeletePolyline_fst (w : World E) (c : MapPolylineComponent) :
    (DeletePolyline w c).1 = w := by
  unfold DeletePolyline
  cases mapGet w.svc._polylines c.ref <;> rfl

theorem UpdatePolyline_fst (w : World E) (c : MapPolylineComponent) :
    (UpdatePolyline w c).1 = w := by
  unfold UpdatePolyline
  cases mapGet w.svc._polylines c.ref <;> rfl

theorem applyOp_setOpts_eq (w : World E) (c : MapPolylineComponent)
    (o : IPolylineOptions) : applyOp w (Op.setOpts c o) = w := by
  cases h : mapGet w.svc._polylines c.ref with
  | none => simp [applyOp, SetOptions, h]
  | some pid => simp [applyOp, SetOptions, h]

theorem applyOp_subscribe_eq (w : World E) (n : String) (c : MapPolylineComponent) :
    applyOp w (Op.subscribe n c) = w := by
  cases h : mapGet w.svc._polylines c.ref with
  | none => simp [applyOp, CreateEventObservable.subscribe, h]
  | some pid => simp [applyOp, CreateEventObservable.subscribe, h]

theorem emittedOutsideZone_applyOp (w : World E) (op : Op E) :
    emittedOutsideZone (applyOp w op).trace = emittedOutsideZone w.trace := by
  cases op with
  | add c =>
    simp [applyOp, AddPolyline, emittedOutsideZone_append, emittedOutsideZone,
      effectOutside, actEmission]
  | del c => rw [applyOp, DeletePolyline_fst]
  | delResolve c l =>
    simp [applyOp, DeletePolyline.onResolve, emittedOutsideZone_append,
      emittedOutsideZone, effectOutside]
  | getNative c => rfl
  | setOpts c o => rw [applyOp_setOpts_eq]
  | setOptsResolve o l =>
    simp [applyOp, SetOptions.onResolve, emittedOutsideZone_append,
      emittedOutsideZone, effectOutside, actEmission]
  | update c => rw [applyOp, UpdatePolyline_fst]
  | updateResolve c l =>
    simp [applyOp, UpdatePolyline.onResolve, emittedOutsideZone_append,
      emittedOutsideZone, effectOutside]
  | subscribe n c => rw [applyOp_subscribe_eq]
  | subscribeResolve n l =>
    simp [applyOp, CreateEventObservable.onResolve, emittedOutsideZone_append,
      emittedOutsideZone, effectOutside, actEmission]
  | fire e =>
    simp [applyOp, listenerFire, emittedOutsideZone_append,
      emittedOutsideZone, effectOutside]

theorem emittedOutsideZone_run (w : World E) (ops : List (Op E)) :
    emittedOutsideZone (run w ops).trace = emittedOutsideZone w.trace := by
  induction ops generalizing w with
  | nil => rfl
  | cons op rest ih =>
    rw [show run w (op :: rest) = run (applyOp w op) rest from rfl, ih,
      emittedOutsideZone_applyOp]

theorem nodupKeys_applyOp (w : World E) (op : Op E)
    (h : NodupKeys w.svc._polylines) : NodupKeys (applyOp w op).svc._polylines := by
  cases op with
  | add c => exact nodupKeys_mapSet _ _ _ h
  | del c => rw [applyOp, DeletePolyline_fst]; exact h
  | delResolve c l => exact nodupKeys_mapDelete _ _ h
  | getNative c => exact h
  | setOpts c o => rw [applyOp_setOpts_eq]; exact h
  | setOptsResolve o l => exact h
  | update c => rw [applyOp, UpdatePolyline_fst]; exact h
  | updateResolve c l => exact h
  | subscribe n c => rw [applyOp_subscribe_eq]; exact h
  | subscribeResolve n l => exact h
  | fire e => exact h

theorem nodupKeys_run (w : World E) (ops : List (Op E))
    (h : NodupKeys w.svc._polylines) : NodupKeys (run w ops).svc._polylines := by
  induction ops generalizing w with
  | nil => exact h
  | cons op rest ih =>
    rw [show run w (op :: rest) = run (applyOp w op) rest from rfl]
    exact ih _ (nodupKeys_applyOp w op h)

end GooglePolylineService

/-! ### Concrete fixtures used by the witnesses -/

/-- A concrete component. -/
def sampleComponent : MapPolylineComponent :=
  { ref := 0
    Id := 1
    Clickable := true
    Draggable := false
    Editable := false
    Geodesic := true
    Path := [{ latitude := 1, longitude := 2 }, { latitude := 3, longitude := 4 }]
    StrokeColor := "red"
    StrokeOpacity := 1
    StrokeWeight := 2
    Visible := true
    zIndex := 5 }

/-- A world in which no component has been registered. -/
def emptyWorld : World Nat :=
  { svc := { _polylines := [] }, nextPid := 0, trace := [] }

/-- A world in which `sampleComponent` (ref 0) is tracked under promise 7. -/
def trackedWorld : World Nat :=
  { svc := { _polylines := [(0, 7)] }, nextPid := 8, trace := [] }

open GooglePolylineService

/-! ### The claims -/

/-- Claim C1: `AddPolyline` forwards the component's declarative properties
unchanged — the options object it builds has fields `id`, `clickable`,
`draggable`, `editable`, `geodesic`, `path`, `strokeColor`, `strokeOpacity`,
`strokeWeight`, `visible` and `zIndex` equal to the component's corresponding
properties, exactly that object is passed to `MapService.CreatePolyline`, and
the call performs no other computation: its entire behaviour is the `Map.set`
of the returned promise and the single `CreatePolyline` call. -/
theorem claim_C1_addPolyline_forwards_options {E : Type} (w : World E)
    (c : MapPolylineComponent) :
    (makeOptions c).id = c.Id ∧
    (makeOptions c).clickable = c.Clickable ∧
    (makeOptions c).draggable = c.Draggable ∧
    (makeOptions c).editable = c.Editable ∧
    (makeOptions c).geodesic = c.Geodesic ∧
    (makeOptions c).path = c.Path ∧
    (makeOptions c).strokeColor = c.StrokeColor ∧
    (makeOptions c).strokeOpacity = c.StrokeOpacity ∧
    (makeOptions c).strokeWeight = c.StrokeWeight ∧
    (makeOptions c).visible = c.Visible ∧
    (makeOptions c).zIndex = c.zIndex ∧
    AddPolyline w c =
      { svc := ⟨mapSet w.svc._polylines c.ref w.nextPid⟩
        nextPid := w.nextPid + 1
        trace := w.trace ++ [Effect.plain (Act.createPolyline w.nextPid (makeOptions c))] } :=
  ⟨rfl, rfl, rfl, rfl, rfl, rfl, rfl, rfl, rfl, rfl, rfl, rfl⟩

/-- Claim C2: the service's mutable state is the single `_polylines` map
(`ServiceState` has exactly that one field): `AddPolyline` stores the promise
returned by `CreatePolyline` (promise `w.nextPid`, the one recorded by the
`createPolyline` trace entry) under the component, and `GetNativeMarker`
returns exactly the entry of that map, for every component. -/
theorem claim_C2_single_map_state {E : Type} (w : World E)
    (c c' : MapPolylineComponent) :
    GetNativeMarker w c' = mapGet w.svc._polylines c'.ref ∧
    (AddPolyline w c).svc =
      ServiceState.mk (mapSet w.svc._polylines c.ref w.nextPid) ∧
    GetNativeMarker (AddPolyline w c) c = some w.nextPid ∧
    (AddPolyline w c).trace =
      w.trace ++ [Effect.plain (Act.createPolyline w.nextPid (makeOptions c))] :=
  ⟨rfl, rfl, mapGet_mapSet_self w.svc._polylines c.ref w.nextPid, rfl⟩

/-- Claim C3: every emission to an observer happens inside `_zone.run`: the
listener registered by `CreateEventObservable` wraps `observer.next(e)` in a
single `zoneRun` effect, and no sequence of service operations ever adds an
`observer.next` outside a `zoneRun` to the trace. -/
theorem claim_C3_observer_next_in_zone {E : Type} (w : World E)
    (ops : List (Op E)) (e : E) :
    (listenerFire w e).trace = w.trace ++ [Effect.zoneRun [Act.observerNext e]] ∧
    emittedInZone (listenerFire w e).trace = emittedInZone w.trace ++ [e] ∧
    emittedOutsideZone (listenerFire w e).trace = emittedOutsideZone w.trace ∧
    emittedOutsideZone (run w ops).trace = emittedOutsideZone w.trace := by
  refine ⟨rfl, ?_, ?_, emittedOutsideZone_run w ops⟩
  · simp [listenerFire, emittedInZone_append, emittedInZone, effectInside,
      actEmission]
  · simp [listenerFire, emittedOutsideZone_append, emittedOutsideZone,
      effectOutside]

/-- Claim C4: `GetCoordinatesFromClick` handles failure only by null checks —
it returns `null` exactly when `e`, `e.latLng`, `e.latLng.lat` or
`e.latLng.lng` is absent, and otherwise returns the literal
`{ latitude: e.latLng.lat(), longitude: e.latLng.lng() }`. -/
theorem claim_C4_getCoordinatesFromClick_null_checks (e : Option GoogleMouseEvent) :
    (GetCoordinatesFromClick e = none ↔
      e = none ∨ ∃ ev, e = some ev ∧ (ev.latLng = none ∨
        ∃ ll, ev.latLng = some ll ∧ (ll.lat = none ∨ ll.lng = none))) ∧
    (∀ ev ll la ln, e = some ev → ev.latLng = some ll → ll.lat = some la →
      ll.lng = some ln →
      GetCoordinatesFromClick e = some { latitude := la (), longitude := ln () }) := by
  constructor
  · rcases e with _ | ⟨ll⟩
    · simp [GetCoordinatesFromClick]
    · rcases ll with _ | ⟨ll⟩
      · simp [GetCoordinatesFromClick]
      · rcases ll with ⟨_ | la, _ | ln⟩ <;> simp [GetCoordinatesFromClick]
  · rintro ev ll la ln rfl h1 h2 h3
    simp [GetCoordinatesFromClick, h1, h2, h3]

/-- Witness for C4 at a concrete event whose `lat`/`lng` methods return 3
and 4. -/
theorem claim_C4_witness :
    GetCoordinatesFromClick
        (some ⟨some ⟨some fun _ => (3 : Int), some fun _ => (4 : Int)⟩⟩) =
      some { latitude := 3, longitude := 4 } :=
  (claim_C4_getCoordinatesFromClick_null_checks _).2 _ _ _ _ rfl rfl rfl rfl

/-- Claim C5: for a component not present in the handle map, `DeletePolyline`
and `UpdatePolyline` each return an already-resolved promise and leave the
world (in particular the map) unchanged — the missing entry is handled by the
`m == null` check, no error is raised. -/
theorem claim_C5_missing_entry_resolved {E : Type} (w : World E)
    (c : MapPolylineComponent) (h : mapGet w.svc._polylines c.ref = none) :
    DeletePolyline w c = (w, SyncResult.resolvedNow) ∧
    UpdatePolyline w c = (w, SyncResult.resolvedNow) := by
  constructor <;> simp [DeletePolyline, UpdatePolyline, h]

/-- Witness for C5 in the world with an empty handle map. -/
theorem claim_C5_witness :
    DeletePolyline emptyWorld sampleComponent = (emptyWorld, SyncResult.resolvedNow) ∧
    UpdatePolyline emptyWorld sampleComponent = (emptyWorld, SyncResult.resolvedNow) :=
  claim_C5_missing_entry_resolved emptyWorld sampleComponent rfl

/-- Claim C6: `SetOptions` and `UpdatePolyline` are pure pass-throughs for a
tracked component: synchronously they only chain on the stored promise, and on
resolution `SetOptions` forwards the `options` object unmodified to the
handle's `SetOptions` while `UpdatePolyline` forwards `polyline.Path`
unmodified to the handle's `SetPath` (inside `_zone.run`) — nothing else is
done to the values or the state. -/
theorem claim_C6_pass_through {E : Type} (w : World E) (c : MapPolylineComponent)
    (options : IPolylineOptions) (l pid : Nat)
    (h : mapGet w.svc._polylines c.ref = some pid) :
    SetOptions w c options = Except.ok (w, SyncResult.chained pid) ∧
    UpdatePolyline w c = (w, SyncResult.chained pid) ∧
    SetOptions.onResolve w options l =
      { w with trace := w.trace ++ [Effect.plain (Act.nativeSetOptions l options)] } ∧
    UpdatePolyline.onResolve w c l =
      { w with trace := w.trace ++ [Effect.zoneRun [Act.nativeSetPath l c.Path]] } := by
  refine ⟨?_, ?_, rfl, rfl⟩ <;> simp [SetOptions, UpdatePolyline, h]

/-- Witness for C6 in the world tracking `sampleComponent` under promise 7,
with the native handle 42. -/
theorem claim_C6_witness :
    SetOptions trackedWorld sampleComponent (makeOptions sampleComponent) =
      Except.ok (trackedWorld, SyncResult.chained 7) ∧
    UpdatePolyline trackedWorld sampleComponent = (trackedWorld, SyncResult.chained 7) ∧
    SetOptions.onResolve trackedWorld (makeOptions sampleComponent) 42 =
      { trackedWorld with
        trace := trackedWorld.trace ++
          [Effect.plain (Act.nativeSetOptions 42 (makeOptions sampleComponent))] } ∧
    UpdatePolyline.onResolve trackedWorld sampleComponent 42 =
      { trackedWorld with
        trace := trackedWorld.trace ++
          [Effect.zoneRun [Act.nativeSetPath 42 sampleComponent.Path]] } :=
  claim_C6_pass_through trackedWorld sampleComponent (makeOptions sampleComponent)
    42 7 rfl

/-- Claim C7: the query operations perform no computation on the service's
state — every operation either leaves the `_polylines` map unchanged
(`GetNativeMarker`, `SetOptions` and its continuation, `UpdatePolyline` and
its continuation, subscription and listener attachment, event firing, and the
synchronous part of `DeletePolyline`; `GetCoordinatesFromClick` does not even
read the state), or it is `AddPolyline` or the `DeletePolyline` continuation,
the only two map writers. -/
theorem claim_C7_query_frame {E : Type} (w : World E) (op : Op E) :
    (applyOp w op).svc = w.svc ∨
      ((∃ c, op = Op.add c) ∨ ∃ c l, op = Op.delResolve c l) := by
  cases op with
  | add c => exact Or.inr (Or.inl ⟨c, rfl⟩)
  | delResolve c l => exact Or.inr (Or.inr ⟨c, l, rfl⟩)
  | del c => exact Or.inl (congrArg World.svc (DeletePolyline_fst w c))
  | getNative c => exact Or.inl rfl
  | setOpts c o => exact Or.inl (congrArg World.svc (applyOp_setOpts_eq w c o))
  | setOptsResolve o l => exact Or.inl rfl
  | update c => exact Or.inl (congrArg World.svc (UpdatePolyline_fst w c))
  | updateResolve c l => exact Or.inl rfl
  | subscribe n c => exact Or.inl (congrArg World.svc (applyOp_subscribe_eq w n c))
  | subscribeResolve n l => exact Or.inl rfl
  | fire e => exact Or.inl rfl

/-- Claim C8: `SetOptions`, the subscription step of `CreateEventObservable`
and `GetNativeMarker` presuppose a component registered by `AddPolyline`: on
an absent component the unguarded `.then` on the `undefined` lookup throws a
`TypeError` in the first two, `GetNativeMarker` returns `undefined`, while
`DeletePolyline` and `UpdatePolyline` guard the missing entry and resolve. -/
theorem claim_C8_unregistered_precondition {E : Type} (w : World E)
    (c : MapPolylineComponent) (o : IPolylineOptions) (n : String)
    (h : mapGet w.svc._polylines c.ref = none) :
    SetOptions w c o = Except.error JsError.typeError ∧
    CreateEventObservable.subscribe w n c = Except.error JsError.typeError ∧
    GetNativeMarker w c = none ∧
    DeletePolyline w c = (w, SyncResult.resolvedNow) ∧
    UpdatePolyline w c = (w, SyncResult.resolvedNow) := by
  refine ⟨?_, ?_, h, ?_, ?_⟩ <;>
    simp [SetOptions, CreateEventObservable.subscribe, DeletePolyline,
      UpdatePolyline, h]

/-- Witness for C8 in the world with an empty handle map. -/
theorem claim_C8_witness :
    SetOptions emptyWorld sampleComponent (makeOptions sampleComponent) =
      Except.error JsError.typeError ∧
    CreateEventObservable.subscribe emptyWorld "click" sampleComponent =
      Except.error JsError.typeError ∧
    GetNativeMarker emptyWorld sampleComponent = none ∧
    DeletePolyline emptyWorld sampleComponent = (emptyWorld, SyncResult.resolvedNow) ∧
    UpdatePolyline emptyWorld sampleComponent = (emptyWorld, SyncResult.resolvedNow) :=
  claim_C8_unregistered_precondition emptyWorld sampleComponent
    (makeOptions sampleComponent) "click" rfl

/-- Claim C9: for a tracked component, `DeletePolyline` chains on the stored
promise; once that promise fulfills with handle `l` and the continuation has
run, the handle's `Delete` has been invoked (inside `_zone.run`), the entry is
gone from the map, `GetNativeMarker` returns no handle, and a second
`DeletePolyline` resolves immediately without adding any collaborator call. -/
theorem claim_C9_delete_resolution {E : Type} (w : World E)
    (c : MapPolylineComponent) (l pid : Nat) (hn : NodupKeys w.svc._polylines)
    (h : mapGet w.svc._polylines c.ref = some pid) :
    DeletePolyline w c = (w, SyncResult.chained pid) ∧
    (DeletePolyline.onResolve w c l).trace =
      w.trace ++ [Effect.zoneRun [Act.nativeDelete l]] ∧
    deletedIn (DeletePolyline.onResolve w c l).trace = deletedIn w.trace ++ [l] ∧
    GetNativeMarker (DeletePolyline.onResolve w c l) c = none ∧
    DeletePolyline (DeletePolyline.onResolve w c l) c =
      (DeletePolyline.onResolve w c l, SyncResult.resolvedNow) := by
  have hdel : mapGet (mapDelete w.svc._polylines c.ref) c.ref = none :=
    mapGet_mapDelete_self w.svc._polylines c.ref hn
  refine ⟨by simp [DeletePolyline, h], rfl, ?_, hdel, ?_⟩
  · simp [DeletePolyline.onResolve, deletedIn_append, deletedIn, actDeletes]
  · simp [DeletePolyline, DeletePolyline.onResolve, hdel]

/-- Witness for C9 in the world tracking `sampleComponent` under promise 7,
with the native handle 42. -/
theorem claim_C9_witness :
    DeletePolyline trackedWorld sampleComponent = (trackedWorld, SyncResult.chained 7) ∧
    (DeletePolyline.onResolve trackedWorld sampleComponent 42).trace =
      trackedWorld.trace ++ [Effect.zoneRun [Act.nativeDelete 42]] ∧
    deletedIn (DeletePolyline.onResolve trackedWorld sampleComponent 42).trace =
      deletedIn trackedWorld.trace ++ [42] ∧
    GetNativeMarker (DeletePolyline.onResolve trackedWorld sampleComponent 42)
      sampleComponent = none ∧
    DeletePolyline (DeletePolyline.onResolve trackedWorld sampleComponent 42)
        sampleComponent =
      (DeletePolyline.onResolve trackedWorld sampleComponent 42, SyncResult.resolvedNow) :=
  claim_C9_delete_resolution trackedWorld sampleComponent 42 7 (by decide) rfl

/-- Claim C10: starting from a well-formed map, the handle map holds at most
one entry per component after any sequence of operations; a second
`AddPolyline` for a component already in the map overwrites the stored promise
with the fresh one (`GetNativeMarker` then returns the new promise), and the
whole call deletes no native polyline — its only collaborator call is the new
`CreatePolyline`. -/
theorem claim_C10_single_entry_overwrite {E : Type} (w : World E)
    (ops : List (Op E)) (c : MapPolylineComponent) (k : Nat)
    (hn : NodupKeys w.svc._polylines) :
    NodupKeys (run w ops).svc._polylines ∧
    countKey (run w ops).svc._polylines k ≤ 1 ∧
    GetNativeMarker (AddPolyline w c) c = some w.nextPid ∧
    deletedIn (AddPolyline w c).trace = deletedIn w.trace ∧
    (AddPolyline w c).trace =
      w.trace ++ [Effect.plain (Act.createPolyline w.nextPid (makeOptions c))] := by
  have hrun := nodupKeys_run w ops hn
  refine ⟨hrun, countKey_le_one_of_nodupKeys _ k hrun,
    mapGet_mapSet_self w.svc._polylines c.ref w.nextPid, ?_, rfl⟩
  simp [AddPolyline, deletedIn_append, deletedIn, actDeletes]

/-- Witness for C10: add `sampleComponent` twice to the tracking world. -/
theorem claim_C10_witness :
    NodupKeys
      ((run trackedWorld [Op.add sampleComponent, Op.add sampleComponent]).svc._polylines) ∧
    countKey
      ((run trackedWorld [Op.add sampleComponent, Op.add sampleComponent]).svc._polylines)
      0 ≤ 1 ∧
    GetNativeMarker (AddPolyline trackedWorld sampleComponent) sampleComponent =
      some trackedWorld.nextPid ∧
    deletedIn (AddPolyline trackedWorld sampleComponent).trace =
      deletedIn trackedWorld.trace ∧
    (AddPolyline trackedWorld sampleComponent).trace =
      trackedWorld.trace ++
        [Effect.plain (Act.createPolyline trackedWorld.nextPid
          (makeOptions sampleComponent))] :=
  claim_C10_single_entry_overwrite trackedWorld
    [Op.add sampleComponent, Op.add sampleComponent] sampleComponent 0 (by decide)

end AngularMaps
